import Mathlib

/-!
Verification model of the Budget Backpacker travel-planner API: user
registration and login, saved-trip records, and location reviews.

The model is a shallow embedding of the route handlers in
`src/routes/savedTrips.js` (trip routes and the current user
register/login snapshot) and `src/routes/users.js` (the current review
routes snapshot), together with the Mongoose schemas in `src/models/`.
JSON field values are modelled by `Value`; the MongoDB collections by
association lists keyed by id strings.  Mongoose's numeric-string
casting on assignment is not modelled (no verified property passes a
value of the wrong primitive type into a persisting path).
-/

/-- A JSON value as the routes receive it: a number, a string, or
`undefined` (an absent/explicitly-undefined field). -/
inductive Value where
  | num (q : ℚ)
  | str (s : String)
  | undefined
  deriving DecidableEq, Repr

/-- A saved-trip document (`src/models/SavedTrips.js`): owner reference,
city, country, price, coordinates, optional image path and notes, and
the creation timestamp (`savedAt`, modelled as a rational). -/
structure Trip where
  user : String
  city : String
  country : String
  price : ℚ
  lat : ℚ
  lon : ℚ
  imagePath : Option String
  notes : Option String
  savedAt : ℚ
  deriving DecidableEq, Repr

/-- A review document (`src/models/Review.js`): owner reference, city,
country, rating (kept as a raw `Value`, since the route-level checks
and the schema validators both inspect it), optional comment, creation
timestamp. -/
structure Review where
  user : String
  city : String
  country : String
  rating : Value
  comment : Option String
  createdAt : ℚ
  deriving DecidableEq, Repr

/-- A user document (`src/models/user.js`); `password` holds the stored
hash. -/
structure UserRec where
  id : String
  username : String
  email : String
  password : String
  createdAt : ℚ
  deriving DecidableEq, Repr

def isHexChar (c : Char) : Bool :=
  c.isDigit || ('a' ≤ c && c ≤ 'f') || ('A' ≤ c && c ≤ 'F')

/-- `mongoose.Types.ObjectId.isValid` on the id strings the API deals
with: a 24-character hex string. -/
def isValidObjectId (s : String) : Bool :=
  s.length == 24 && s.data.all isHexChar

/-- The schema paths of a trip document. -/
inductive TripField where
  | user | city | country | price | lat | lon | imagePath | notes | savedAt
  deriving DecidableEq, Repr

def tripFieldName : TripField → String
  | .user => "user"
  | .city => "city"
  | .country => "country"
  | .price => "price"
  | .lat => "lat"
  | .lon => "lon"
  | .imagePath => "imagePath"
  | .notes => "notes"
  | .savedAt => "savedAt"

/-- Recognize a field-name string as a trip schema path. -/
def parseTripField : String → Option TripField
  | "user" => some .user
  | "city" => some .city
  | "country" => some .country
  | "price" => some .price
  | "lat" => some .lat
  | "lon" => some .lon
  | "imagePath" => some .imagePath
  | "notes" => some .notes
  | "savedAt" => some .savedAt
  | _ => none

/-- Assignment of a value to a single trip schema path. -/
def Trip.set1 (t : Trip) : TripField → Value → Trip
  | .user, .str s => { t with user := s }
  | .city, .str s => { t with city := s }
  | .country, .str s => { t with country := s }
  | .price, .num q => { t with price := q }
  | .lat, .num q => { t with lat := q }
  | .lon, .num q => { t with lon := q }
  | .imagePath, .str s => { t with imagePath := some s }
  | .notes, .str s => { t with notes := some s }
  | .savedAt, .num q => { t with savedAt := q }
  | _, _ => t

/-- Read a single trip schema path as a `Value`. -/
def Trip.get1 (t : Trip) : TripField → Value
  | .user => .str t.user
  | .city => .str t.city
  | .country => .str t.country
  | .price => .num t.price
  | .lat => .num t.lat
  | .lon => .num t.lon
  | .imagePath => match t.imagePath with | some s => .str s | none => .undefined
  | .notes => match t.notes with | some s => .str s | none => .undefined
  | .savedAt => .num t.savedAt

/-- Dynamic assignment `doc[key] = value` on a trip document, as
MongoDB's `$set` / Mongoose assignment performs it for schema paths;
keys outside the schema are ignored (Mongoose strict mode). -/
def Trip.setField (t : Trip) (k : String) (v : Value) : Trip :=
  match parseTripField k with
  | some f => t.set1 f v
  | none => t

/-- Read a trip field by name, as a `Value` (unknown names read as
`undefined`, like property access on a JS object). -/
def Trip.getField (t : Trip) (k : String) : Value :=
  match parseTripField k with
  | some f => t.get1 f
  | none => .undefined

/-- The schema paths of a review document. -/
inductive ReviewField where
  | user | city | country | rating | comment | createdAt
  deriving DecidableEq, Repr

def reviewFieldName : ReviewField → String
  | .user => "user"
  | .city => "city"
  | .country => "country"
  | .rating => "rating"
  | .comment => "comment"
  | .createdAt => "createdAt"

/-- Recognize a field-name string as a review schema path. -/
def parseReviewField : String → Option ReviewField
  | "user" => some .user
  | "city" => some .city
  | "country" => some .country
  | "rating" => some .rating
  | "comment" => some .comment
  | "createdAt" => some .createdAt
  | _ => none

/-- Assignment of a value to a single review schema path (`rating`
keeps the raw value; the schema validators judge it at save time;
a numeric comment is cast to its string form, as Mongoose casts
numbers assigned to string paths). -/
def Review.set1 (r : Review) : ReviewField → Value → Review
  | .user, .str s => { r with user := s }
  | .city, .str s => { r with city := s }
  | .country, .str s => { r with country := s }
  | .rating, v => { r with rating := v }
  | .comment, .str s => { r with comment := some s }
  | .comment, .num q => { r with comment := some (toString q) }
  | .comment, .undefined => { r with comment := none }
  | .createdAt, .num q => { r with createdAt := q }
  | _, _ => r

/-- Read a single review schema path as a `Value`. -/
def Review.get1 (r : Review) : ReviewField → Value
  | .user => .str r.user
  | .city => .str r.city
  | .country => .str r.country
  | .rating => r.rating
  | .comment => match r.comment with | some s => .str s | none => .undefined
  | .createdAt => .num r.createdAt

/-- Dynamic assignment `review[key] = value` for schema paths of a
review. -/
def Review.setField (r : Review) (k : String) (v : Value) : Review :=
  match parseReviewField k with
  | some f => r.set1 f v
  | none => r

/-- Read a review field by name, as a `Value`. -/
def Review.getField (r : Review) (k : String) : Value :=
  match parseReviewField k with
  | some f => r.get1 f
  | none => .undefined

/-- Allow-list of patchable trip fields (`savedTrips.js`:
`const allowedUpdates = ['notes', 'imagePath', 'price']`). -/
def tripAllowedUpdates : List String := ["notes", "imagePath", "price"]

/-- Allow-list of patchable review fields (`users.js` review-route
snapshot: `const allowedUpdates = ['rating', 'comment']`). -/
def reviewAllowedUpdates : List String := ["rating", "comment"]

/-- `Object.keys(updates)`. -/
def keysOf (updates : List (String × Value)) : List String := updates.map (·.1)

/-- The error outcomes of the route handlers, abstracted from the JSON
bodies; `invalidUpdateFields` carries the list of disallowed field
names the handler reports. -/
inductive UpdateError where
  | missingFields
  | invalidId
  | invalidUpdateFields (invalid : List String)
  | validationError
  | notFound
  | forbidden
  | missingFilter
  | serverError
  deriving DecidableEq, Repr

/-- The HTTP status each error outcome is sent with. -/
def UpdateError.status : UpdateError → Nat
  | .missingFields => 400
  | .invalidId => 400
  | .invalidUpdateFields _ => 400
  | .validationError => 400
  | .notFound => 404
  | .forbidden => 403
  | .missingFilter => 400
  | .serverError => 500

/-- `findById` on a collection: the first record stored under `id`. -/
def storeGet (s : List (String × α)) (id : String) : Option α :=
  match s with
  | [] => none
  | kv :: rest => if kv.1 = id then some kv.2 else storeGet rest id

/-- Overwrite the record stored under `id` (the persisted effect of a
successful single-document update). -/
def storeSet (s : List (String × α)) (id : String) (r : α) : List (String × α) :=
  s.map (fun kv => if kv.1 = id then (id, r) else kv)

/-- Apply a patch payload to a trip, field by field, in payload order
(the effect of `findByIdAndUpdate(id, updates)` on the document). -/
def applyTripUpdates (t : Trip) (updates : List (String × Value)) : Trip :=
  updates.foldl (fun acc kv => acc.setField kv.1 kv.2) t

/-- Apply a patch payload to a review
(`Object.keys(updates).forEach(k => review[k] = updates[k])`). -/
def applyReviewUpdates (r : Review) (updates : List (String × Value)) : Review :=
  updates.foldl (fun acc kv => acc.setField kv.1 kv.2) r

/-- Mongoose update-validator check for a single updated trip path
(`runValidators: true` re-runs the schema validators on the paths named
in the update): price numeric and ≥ 0, notes a string of ≤ 500
characters, imagePath a string. -/
def tripUpdateFieldValid (k : String) (v : Value) : Bool :=
  if k = "price" then match v with | .num q => decide (0 ≤ q) | _ => false
  else if k = "notes" then match v with | .str s => decide (s.length ≤ 500) | _ => false
  else if k = "imagePath" then match v with | .str _ => true | _ => false
  else true

/-- Full-document schema validation for a trip (run by `save()` at
creation): required strings non-empty, price ≥ 0, notes ≤ 500 chars. -/
def tripDocValid (t : Trip) : Bool :=
  !(t.user == "") && !(t.city == "") && !(t.country == "") && decide (0 ≤ t.price) &&
    (match t.notes with | some s => decide (s.length ≤ 500) | none => true)

/-- The schema validator on a review's rating: a number in [1, 5]. -/
def ratingValueOk : Value → Bool
  | .num q => decide (1 ≤ q) && decide (q ≤ 5)
  | _ => false

/-- The review routes' explicit rating guard:
`updates.rating !== undefined && (typeof updates.rating !== 'number' || rating < 1 || rating > 5)`
fails the request; an absent (or `undefined`) rating skips the guard. -/
def ratingCheckPasses (updates : List (String × Value)) : Bool :=
  match updates.lookup "rating" with
  | none => true
  | some .undefined => true
  | some v => ratingValueOk v

/-- Full-document schema validation for a review (run by `save()`):
required strings non-empty, rating a number in [1, 5], comment ≤ 500
characters when present. -/
def reviewDocValid (r : Review) : Bool :=
  !(r.user == "") && !(r.city == "") && !(r.country == "") && ratingValueOk r.rating &&
    (match r.comment with | some s => decide (s.length ≤ 500) | none => true)

/-- PATCH /api/savedtrips/:id (`savedTrips.js`, current snapshot):
id-format check, field allow-list check naming every disallowed field,
then `findByIdAndUpdate(id, updates, new + runValidators)`.  Cast
failures and validation failures on the update are collapsed into the
single no-write failure outcome `validationError`. -/
def patchTrip (store : List (String × Trip)) (id : String)
    (updates : List (String × Value)) : Except UpdateError Trip × List (String × Trip) :=
  if isValidObjectId id = false then (.error .invalidId, store)
  else if (keysOf updates).all (fun k => tripAllowedUpdates.contains k) = false then
    (.error (.invalidUpdateFields
      ((keysOf updates).filter (fun k => !tripAllowedUpdates.contains k))), store)
  else
    match storeGet store id with
    | none => (.error .notFound, store)
    | some t =>
      if updates.all (fun kv => tripUpdateFieldValid kv.1 kv.2) = false then
        (.error .validationError, store)
      else
        (.ok (applyTripUpdates t updates), storeSet store id (applyTripUpdates t updates))

/-- PATCH /api/reviews/:id (`users.js`, current review-route snapshot):
id-format check; allow-list check naming every disallowed field; the
explicit rating guard; `findById`; then `req.user.id` — when no acting
identity is attached the dereference throws a TypeError, which the
catch block (matching only `ValidationError`) surfaces as a 500
`serverError`; then the ownership comparison; then field-by-field
assignment and `save()` (full-document validation, one write). -/
def patchReview (store : List (String × Review)) (acting : Option String) (id : String)
    (updates : List (String × Value)) : Except UpdateError Review × List (String × Review) :=
  if isValidObjectId id = false then (.error .invalidId, store)
  else if (keysOf updates).all (fun k => reviewAllowedUpdates.contains k) = false then
    (.error (.invalidUpdateFields
      ((keysOf updates).filter (fun k => !reviewAllowedUpdates.contains k))), store)
  else if ratingCheckPasses updates = false then
    (.error .validationError, store)
  else
    match storeGet store id with
    | none => (.error .notFound, store)
    | some r =>
      match acting with
      | none => (.error .serverError, store)
      | some uid =>
        if (r.user == uid) = false then (.error .forbidden, store)
        else
          if reviewDocValid (applyReviewUpdates r updates) = false then
            (.error .validationError, store)
          else
            (.ok (applyReviewUpdates r updates),
             storeSet store id (applyReviewUpdates r updates))

/-- POST /api/savedtrips (`savedTrips.js`, current snapshot): required
fields, owner-id format, owner existence, then `save()` (schema
validation, then insert; a duplicate key fails the save and is mapped
to 500 by the generic catch). -/
def createTrip (users : List UserRec) (store : List (String × Trip))
    (newId userId city country : String) (price lat lon : Option ℚ)
    (imagePath notes : Option String) (now : ℚ) :
    Except UpdateError Trip × List (String × Trip) :=
  match price, lat, lon with
  | some p, some la, some lo =>
    if userId == "" || city == "" || country == "" then (.error .missingFields, store)
    else if isValidObjectId userId = false then (.error .invalidId, store)
    else
      match users.find? (fun u => u.id == userId) with
      | none => (.error .notFound, store)
      | some _ =>
        let t : Trip := ⟨userId, city, country, p, la, lo, imagePath, notes, now⟩
        if tripDocValid t = false then (.error .validationError, store)
        else
          match storeGet store newId with
          | some _ => (.error .serverError, store)
          | none => (.ok t, (newId, t) :: store)
  | _, _, _ => (.error .missingFields, store)

/-- POST /api/reviews (`users.js`, current review-route snapshot):
required fields (rating present means not `undefined`), owner-id
format, the explicit rating range guard
(`typeof rating !== 'number' || rating < 1 || rating > 5`), owner
existence, then `save()`. -/
def createReview (users : List UserRec) (store : List (String × Review))
    (newId userId city country : String) (rating : Value) (comment : Option String)
    (now : ℚ) : Except UpdateError Review × List (String × Review) :=
  if userId == "" || city == "" || country == "" || rating == Value.undefined then
    (.error .missingFields, store)
  else if isValidObjectId userId = false then (.error .invalidId, store)
  else if ratingValueOk rating = false then (.error .validationError, store)
  else
    match users.find? (fun u => u.id == userId) with
    | none => (.error .notFound, store)
    | some _ =>
      let r : Review := ⟨userId, city, country, rating, comment, now⟩
      if reviewDocValid r = false then (.error .validationError, store)
      else
        match storeGet store newId with
        | some _ => (.error .serverError, store)
        | none => (.ok r, (newId, r) :: store)

/-- DELETE /api/reviews/:id (`users.js` review-route snapshot): id
format, existence, then delete; the ownership check is commented out in
the source, so none is performed here. -/
def deleteReview (store : List (String × Review)) (id : String) :
    Except UpdateError Unit × List (String × Review) :=
  if isValidObjectId id = false then (.error .invalidId, store)
  else
    match storeGet store id with
    | none => (.error .notFound, store)
    | some _ => (.ok (), store.filter (fun kv => !(kv.1 == id)))

/-- Outcome of register/login: a 2xx response carrying the returned
identity fields (never the password), or a status + message error. -/
inductive AuthResult where
  | ok (status : Nat) (id username email : String)
  | err (status : Nat) (message : String)
  deriving DecidableEq, Repr

/-- POST /api/users/register (`savedTrips.js`, current user-route
snapshot): presence check, explicit password length < 6 check,
duplicate check distinguishing email from username; the snapshot then
hashes the password but performs no `save()` call, so the user store is
returned unchanged and a 201 response (without the password) is sent.
The hash and the response `createdAt` are unobservable here and
omitted. -/
def register (users : List UserRec) (newId username email password : String) :
    AuthResult × List UserRec :=
  if username == "" || email == "" || password == "" then
    (.err 400 "Please provide username, email, and password", users)
  else if password.length < 6 then
    (.err 400 "Password must be at least 6 characters long", users)
  else
    match users.find? (fun u => u.email == email || u.username == username) with
    | some u =>
      (.err 400 (if u.email == email then "Email already in use" else "Username already taken"),
       users)
    | none => (.ok 201 newId username email, users)

/-- POST /api/users/login (`savedTrips.js`, current user-route
snapshot): identifier is `email || username`; `findOne` with `$or`
(first matching user); `bcrypt.compare` is the abstract `verify`
parameter.  Both failure branches return the same
400 "Invalid Credentials" response. -/
def login (verify : String → String → Bool) (users : List UserRec)
    (email username password : String) : AuthResult :=
  let identifier := if email == "" then username else email
  if identifier == "" || password == "" then
    .err 400 "Please provide email/username and password"
  else
    match users.find? (fun u => u.email == identifier || u.username == identifier) with
    | none => .err 400 "Invalid Credentials"
    | some u =>
      if verify password u.password then .ok 200 u.id u.username u.email
      else .err 400 "Invalid Credentials"

/-- Case-insensitive character comparison, as the regex `i` flag
performs it on ASCII letters. -/
def ciCharEq (a b : Char) : Bool := a.toLower == b.toLower

/-- Matching of an anchored case-insensitive JS regex built from a
query value against a whole string: models
`new RegExp('^' + v + '$', 'i').test(s)` for pattern texts `v` made of
literal characters and the `.` metacharacter (which matches any single
character).  The route interpolates the raw query value into the
pattern without escaping, so a `.` in the query acts as a wildcard. -/
def regexDotCiMatch : List Char → List Char → Bool
  | [], [] => true
  | p :: ps, c :: cs => (p == '.' || ciCharEq p c) && regexDotCiMatch ps cs
  | [], _ :: _ => false
  | _ :: _, [] => false

def anchoredCiTest (v s : String) : Bool := regexDotCiMatch v.data s.data

/-- Case-insensitive whole-string equality (the comparison the spec
describes for city/country filters), character-wise over the string's
characters. -/
def ciStringEq (a b : String) : Bool :=
  a.data.map Char.toLower == b.data.map Char.toLower

/-- Whether a stored review matches the constructed filter
(`users.js` review-route snapshot, GET handler): city/country compared
by the anchored case-insensitive regex, owner by id equality. -/
def reviewMatchesFilter (city country userId : Option String) (r : Review) : Bool :=
  (match city with | some c => anchoredCiTest c r.city | none => true) &&
  (match country with | some c => anchoredCiTest c r.country | none => true) &&
  (match userId with | some u => r.user == u | none => true)

/-- An empty query-string value is falsy in JS, so it contributes no
filter criterion. -/
def normQuery : Option String → Option String
  | some "" => none
  | o => o

/-- GET /api/reviews (`users.js` review-route snapshot): build the
filter from the city/country/userId query values (validating the
userId format when present), fail `missingFilter` when no criterion
remains, otherwise return the matching reviews.  The newest-first sort
and owner population are omitted: no verified property concerns
ordering or the response shape. -/
def listReviewsQ (store : List (String × Review)) (city country userId : Option String) :
    Except UpdateError (List (String × Review)) :=
  let cityF := normQuery city
  let countryF := normQuery country
  match normQuery userId with
  | some u =>
    if isValidObjectId u = false then .error .invalidId
    else .ok (store.filter (fun kv => reviewMatchesFilter cityF countryF (some u) kv.2))
  | none =>
    if cityF.isNone && countryF.isNone then .error .missingFilter
    else .ok (store.filter (fun kv => reviewMatchesFilter cityF countryF none kv.2))

/-- The whole application state the routes act on: the three
collections. -/
structure AppState where
  users : List UserRec
  trips : List (String × Trip)
  reviews : List (String × Review)
  deriving DecidableEq, Repr

/-- The state-relevant operations of the system named by the owner
invariant: creation, partial update and query of trips and reviews
(queries leave the state untouched). -/
inductive Op where
  | createTrip (newId userId city country : String) (price lat lon : Option ℚ)
      (imagePath notes : Option String) (now : ℚ)
  | patchTrip (id : String) (updates : List (String × Value))
  | createReview (newId userId city country : String) (rating : Value)
      (comment : Option String) (now : ℚ)
  | patchReview (acting : Option String) (id : String) (updates : List (String × Value))
  | listTrips (userId : String)
  | getTrip (id : String)
  | listReviews (city country userId : Option String)
  | getReview (id : String)

/-- One request handled against the application state. -/
def step (s : AppState) : Op → AppState
  | .createTrip newId userId city country price lat lon imagePath notes now =>
    { s with trips := (createTrip s.users s.trips newId userId city country
        price lat lon imagePath notes now).2 }
  | .patchTrip id updates => { s with trips := (patchTrip s.trips id updates).2 }
  | .createReview newId userId city country rating comment now =>
    { s with reviews := (createReview s.users s.reviews newId userId city country
        rating comment now).2 }
  | .patchReview acting id updates =>
    { s with reviews := (patchReview s.reviews acting id updates).2 }
  | .listTrips _ => s
  | .getTrip _ => s
  | .listReviews _ _ _ => s
  | .getReview _ => s

/-- A sequence of requests handled in order. -/
def runOps (s : AppState) (ops : List Op) : AppState := ops.foldl step s

theorem parseTripField_name {k : String} {f : TripField} (h : parseTripField k = some f) :
    k = tripFieldName f := by
  unfold parseTripField at h
  split at h <;> simp_all <;> subst h <;> rfl

theorem parseReviewField_name {k : String} {f : ReviewField} (h : parseReviewField k = some f) :
    k = reviewFieldName f := by
  unfold parseReviewField at h
  split at h <;> simp_all <;> subst h <;> rfl

theorem trip_get1_set1_ne (t : Trip) (f f' : TripField) (v : Value) (h : f ≠ f') :
    (t.set1 f' v).get1 f = t.get1 f := by
  cases f <;> cases f' <;> cases v <;> first | rfl | exact absurd rfl h

theorem review_get1_set1_ne (r : Review) (f f' : ReviewField) (v : Value) (h : f ≠ f') :
    (r.set1 f' v).get1 f = r.get1 f := by
  cases f <;> cases f' <;> cases v <;> first | rfl | exact absurd rfl h

/-- Writing one named field leaves every differently-named field's
value unchanged (trips). -/
theorem trip_getField_setField_ne (t : Trip) (k k' : String) (v : Value) (h : k ≠ k') :
    (t.setField k' v).getField k = t.getField k := by
  unfold Trip.setField Trip.getField
  cases hp' : parseTripField k' <;> cases hp : parseTripField k
  case some.some f' f =>
    exact trip_get1_set1_ne t f f' v
      (fun hf => h (by rw [parseTripField_name hp, parseTripField_name hp', hf]))
  all_goals rfl

/-- Writing one named field leaves every differently-named field's
value unchanged (reviews). -/
theorem review_getField_setField_ne (r : Review) (k k' : String) (v : Value) (h : k ≠ k') :
    (r.setField k' v).getField k = r.getField k := by
  unfold Review.setField Review.getField
  cases hp' : parseReviewField k' <;> cases hp : parseReviewField k
  case some.some f' f =>
    exact review_get1_set1_ne r f f' v
      (fun hf => h (by rw [parseReviewField_name hp, parseReviewField_name hp', hf]))
  all_goals rfl

/-- A patch payload leaves every field it does not name unchanged
(trips). -/
theorem applyTripUpdates_getField_not_mem (updates : List (String × Value)) (t : Trip)
    (k : String) (h : k ∉ keysOf updates) :
    (applyTripUpdates t updates).getField k = t.getField k := by
  induction updates generalizing t with
  | nil => rfl
  | cons kv rest ih =>
    simp only [keysOf, List.map_cons, List.mem_cons, not_or] at h
    exact (ih (t.setField kv.1 kv.2) h.2).trans (trip_getField_setField_ne t k kv.1 kv.2 h.1)

/-- A patch payload leaves every field it does not name unchanged
(reviews). -/
theorem applyReviewUpdates_getField_not_mem (updates : List (String × Value)) (r : Review)
    (k : String) (h : k ∉ keysOf updates) :
    (applyReviewUpdates r updates).getField k = r.getField k := by
  induction updates generalizing r with
  | nil => rfl
  | cons kv rest ih =>
    simp only [keysOf, List.map_cons, List.mem_cons, not_or] at h
    exact (ih (r.setField kv.1 kv.2) h.2).trans (review_getField_setField_ne r k kv.1 kv.2 h.1)

/-- Writing an allow-listed trip field never touches the owner
reference. -/
theorem trip_setField_user_of_allowed (t : Trip) (k : String) (v : Value)
    (h : tripAllowedUpdates.contains k = true) : (t.setField k v).user = t.user := by
  have hm : k ∈ tripAllowedUpdates := by simpa using h
  simp only [tripAllowedUpdates, List.mem_cons, List.mem_singleton] at hm
  rcases hm with rfl | rfl | rfl | hfalse
  · cases v <;> rfl
  · cases v <;> rfl
  · cases v <;> rfl
  · cases hfalse

/-- Writing an allow-listed review field never touches the owner
reference. -/
theorem review_setField_user_of_allowed (r : Review) (k : String) (v : Value)
    (h : reviewAllowedUpdates.contains k = true) : (r.setField k v).user = r.user := by
  have hm : k ∈ reviewAllowedUpdates := by simpa using h
  simp only [reviewAllowedUpdates, List.mem_cons, List.mem_singleton] at hm
  rcases hm with rfl | rfl | hfalse
  · cases v <;> rfl
  · cases v <;> rfl
  · cases hfalse

/-- An allow-listed trip patch payload preserves the owner reference. -/
theorem applyTripUpdates_user (updates : List (String × Value)) (t : Trip)
    (h : (keysOf updates).all (fun k => tripAllowedUpdates.contains k) = true) :
    (applyTripUpdates t updates).user = t.user := by
  induction updates generalizing t with
  | nil => rfl
  | cons kv rest ih =>
    simp only [keysOf, List.map_cons, List.all_cons, Bool.and_eq_true] at h
    exact (ih (t.setField kv.1 kv.2) h.2).trans (trip_setField_user_of_allowed t kv.1 kv.2 h.1)

/-- An allow-listed review patch payload preserves the owner
reference. -/
theorem applyReviewUpdates_user (updates : List (String × Value)) (r : Review)
    (h : (keysOf updates).all (fun k => reviewAllowedUpdates.contains k) = true) :
    (applyReviewUpdates r updates).user = r.user := by
  induction updates generalizing r with
  | nil => rfl
  | cons kv rest ih =>
    simp only [keysOf, List.map_cons, List.all_cons, Bool.and_eq_true] at h
    exact (ih (r.setField kv.1 kv.2) h.2).trans (review_setField_user_of_allowed r kv.1 kv.2 h.1)

theorem storeGet_storeSet_self (s : List (String × α)) (id : String) (r : α)
    (h : (storeGet s id).isSome) : storeGet (storeSet s id r) id = some r := by
  induction s with
  | nil => simp [storeGet] at h
  | cons kv rest ih =>
    by_cases he : kv.1 = id
    · simp [storeSet, storeGet, he]
    · simp only [storeSet, List.map_cons, if_neg he] at *
      simp only [storeGet, if_neg he] at h ⊢
      exact ih h

theorem storeGet_storeSet_ne (s : List (String × α)) (id j : String) (r : α)
    (h : j ≠ id) : storeGet (storeSet s id r) j = storeGet s j := by
  induction s with
  | nil => rfl
  | cons kv rest ih =>
    show storeGet ((if kv.1 = id then (id, r) else kv) :: storeSet rest id r) j
        = storeGet (kv :: rest) j
    by_cases he : kv.1 = id
    · rw [if_pos he]
      show (if id = j then some r else storeGet (storeSet rest id r) j) = storeGet (kv :: rest) j
      rw [if_neg (fun hh => h hh.symm), ih]
      show storeGet rest j = (if kv.1 = j then some kv.2 else storeGet rest j)
      rw [if_neg (fun hh => h (hh.symm.trans he))]
    · rw [if_neg he]
      show (if kv.1 = j then some kv.2 else storeGet (storeSet rest id r) j)
          = (if kv.1 = j then some kv.2 else storeGet rest j)
      by_cases hj : kv.1 = j
      · rw [if_pos hj, if_pos hj]
      · rw [if_neg hj, if_neg hj]
        exact ih

/-- C1: a PATCH against a trip or review with any requested field
outside the resource's allow-list fails with the invalid-update-fields
error, the error carries every offending field (not just the first),
and the store is returned unmodified. -/
theorem patch_rejects_disallowed_fields
    (ts : List (String × Trip)) (tid : String) (tupd : List (String × Value))
    (rs : List (String × Review)) (acting : Option String) (rid : String)
    (rupd : List (String × Value))
    (htid : isValidObjectId tid = true) (hrid : isValidObjectId rid = true)
    (htbad : ∃ k ∈ keysOf tupd, tripAllowedUpdates.contains k = false)
    (hrbad : ∃ k ∈ keysOf rupd, reviewAllowedUpdates.contains k = false) :
    (patchTrip ts tid tupd =
      (.error (.invalidUpdateFields
        ((keysOf tupd).filter (fun k => !tripAllowedUpdates.contains k))), ts) ∧
     ∀ k ∈ keysOf tupd, tripAllowedUpdates.contains k = false →
       k ∈ (keysOf tupd).filter (fun k => !tripAllowedUpdates.contains k)) ∧
    (patchReview rs acting rid rupd =
      (.error (.invalidUpdateFields
        ((keysOf rupd).filter (fun k => !reviewAllowedUpdates.contains k))), rs) ∧
     ∀ k ∈ keysOf rupd, reviewAllowedUpdates.contains k = false →
       k ∈ (keysOf rupd).filter (fun k => !reviewAllowedUpdates.contains k)) := by
  have htall : (keysOf tupd).all (fun k => tripAllowedUpdates.contains k) = false := by
    obtain ⟨k, hk, hnk⟩ := htbad
    cases hall : (keysOf tupd).all (fun k => tripAllowedUpdates.contains k)
    · rfl
    · have := List.all_eq_true.mp hall k hk
      rw [hnk] at this
      cases this
  have hrall : (keysOf rupd).all (fun k => reviewAllowedUpdates.contains k) = false := by
    obtain ⟨k, hk, hnk⟩ := hrbad
    cases hall : (keysOf rupd).all (fun k => reviewAllowedUpdates.contains k)
    · rfl
    · have := List.all_eq_true.mp hall k hk
      rw [hnk] at this
      cases this
  refine ⟨⟨?_, ?_⟩, ?_, ?_⟩
  · unfold patchTrip
    rw [if_neg (by simp [htid]), if_pos htall]
  · intro k hk hnk
    exact List.mem_filter.mpr ⟨hk, by rw [hnk]; rfl⟩
  · unfold patchReview
    rw [if_neg (by simp [hrid]), if_pos hrall]
  · intro k hk hnk
    exact List.mem_filter.mpr ⟨hk, by rw [hnk]; rfl⟩

/-- Witness for C1 at a concrete input: patching `city` (not
allow-listed) on a trip and on a review fails with the error naming
`city`, and the stores come back unchanged. -/
theorem patch_rejects_disallowed_fields_witness :
    patchTrip [] "aaaaaaaaaaaaaaaaaaaaaaaa" [("city", Value.str "X")] =
      (.error (.invalidUpdateFields ["city"]), []) ∧
    patchReview [] none "aaaaaaaaaaaaaaaaaaaaaaaa" [("city", Value.str "X")] =
      (.error (.invalidUpdateFields ["city"]), []) :=
  ⟨(patch_rejects_disallowed_fields [] "aaaaaaaaaaaaaaaaaaaaaaaa" [("city", Value.str "X")]
      [] none "aaaaaaaaaaaaaaaaaaaaaaaa" [("city", Value.str "X")] (by decide) (by decide)
      ⟨"city", by decide, by decide⟩ ⟨"city", by decide, by decide⟩).1.1,
   (patch_rejects_disallowed_fields [] "aaaaaaaaaaaaaaaaaaaaaaaa" [("city", Value.str "X")]
      [] none "aaaaaaaaaaaaaaaaaaaaaaaa" [("city", Value.str "X")] (by decide) (by decide)
      ⟨"city", by decide, by decide⟩ ⟨"city", by decide, by decide⟩).2.1⟩

/-- C3: a rating value outside [1, 5] (e.g. 0, 5.5, 6) makes review
creation and review patch both fail with the validation error, with no
record written or modified. -/
theorem rating_out_of_range_rejected
    (users : List UserRec) (cstore pstore : List (String × Review))
    (newId userId city country : String) (comment : Option String) (now : ℚ)
    (acting : Option String) (pid : String) (rupd : List (String × Value)) (q : ℚ)
    (hq : q < 1 ∨ 5 < q)
    (hu : userId ≠ "") (hc : city ≠ "") (hco : country ≠ "")
    (hvid : isValidObjectId userId = true) (hpid : isValidObjectId pid = true)
    (hallow : (keysOf rupd).all (fun k => reviewAllowedUpdates.contains k) = true)
    (hr : rupd.lookup "rating" = some (Value.num q)) :
    createReview users cstore newId userId city country (Value.num q) comment now =
      (.error .validationError, cstore) ∧
    patchReview pstore acting pid rupd = (.error .validationError, pstore) := by
  have hro : ratingValueOk (Value.num q) = false := by
    rcases hq with hq | hq
    · have h1 : ¬ (1 : ℚ) ≤ q := not_le.mpr hq
      simp [ratingValueOk, h1]
    · have h1 : ¬ q ≤ (5 : ℚ) := not_le.mpr hq
      simp [ratingValueOk, h1]
  constructor
  · unfold createReview
    rw [if_neg (by simp [hu, hc, hco]), if_neg (by simp [hvid]), if_pos hro]
  · unfold patchReview
    have hrc : ratingCheckPasses rupd = false := by
      unfold ratingCheckPasses
      rw [hr]
      exact hro
    rw [if_neg (by simp [hpid]), if_neg (by rw [hallow]; simp), if_pos hrc]

/-- Witness for C3 at rating 5.5: creation and patch both fail with a
validation error and unchanged stores. -/
theorem rating_out_of_range_rejected_witness :
    createReview [] [] "bbbbbbbbbbbbbbbbbbbbbbbb" "aaaaaaaaaaaaaaaaaaaaaaaa"
      "Lima" "Peru" (Value.num (11 / 2)) none 0 = (.error .validationError, []) ∧
    patchReview [] none "bbbbbbbbbbbbbbbbbbbbbbbb"
      [("rating", Value.num (11 / 2))] = (.error .validationError, []) :=
  rating_out_of_range_rejected [] [] [] "bbbbbbbbbbbbbbbbbbbbbbbb" "aaaaaaaaaaaaaaaaaaaaaaaa"
    "Lima" "Peru" none 0 none "bbbbbbbbbbbbbbbbbbbbbbbb" [("rating", Value.num (11 / 2))]
    (11 / 2) (Or.inr (by norm_num)) (by decide) (by decide) (by decide) (by decide)
    (by decide) (by decide) (by rfl)

/-- C4: a review patch that passes the allow-list and rating checks,
on an existing review whose owner differs from the established acting
identity, fails with 403 `forbidden` and leaves the store unchanged. -/
theorem review_patch_forbidden_for_non_owner
    (store : List (String × Review)) (uid id : String)
    (rupd : List (String × Value)) (r : Review)
    (hid : isValidObjectId id = true)
    (hallow : (keysOf rupd).all (fun k => reviewAllowedUpdates.contains k) = true)
    (hrat : ratingCheckPasses rupd = true)
    (hfound : storeGet store id = some r)
    (hown : r.user ≠ uid) :
    patchReview store (some uid) id rupd = (.error .forbidden, store) ∧
    UpdateError.status .forbidden = 403 := by
  refine ⟨?_, rfl⟩
  unfold patchReview
  rw [if_neg (by simp [hid]), if_neg (by rw [hallow]; simp), if_neg (by rw [hrat]; simp),
    hfound]
  have hbeq : (r.user == uid) = false := beq_eq_false_iff_ne.mpr hown
  show (if (r.user == uid) = false then (Except.error UpdateError.forbidden, store)
        else
          if reviewDocValid (applyReviewUpdates r rupd) = false then
            (Except.error UpdateError.validationError, store)
          else (Except.ok (applyReviewUpdates r rupd),
                storeSet store id (applyReviewUpdates r rupd))) =
      (Except.error UpdateError.forbidden, store)
  rw [if_pos hbeq]

/-- Witness for C4: user b patching a review owned by user a gets 403
and the store is unchanged. -/
theorem review_patch_forbidden_for_non_owner_witness :
    patchReview
      [("cccccccccccccccccccccccc",
        ⟨"aaaaaaaaaaaaaaaaaaaaaaaa", "Lima", "Peru", Value.num 4, none, 0⟩)]
      (some "bbbbbbbbbbbbbbbbbbbbbbbb") "cccccccccccccccccccccccc"
      [("rating", Value.num 5)] =
      (.error .forbidden,
       [("cccccccccccccccccccccccc",
         ⟨"aaaaaaaaaaaaaaaaaaaaaaaa", "Lima", "Peru", Value.num 4, none, 0⟩)]) :=
  (review_patch_forbidden_for_non_owner
    [("cccccccccccccccccccccccc",
      ⟨"aaaaaaaaaaaaaaaaaaaaaaaa", "Lima", "Peru", Value.num 4, none, 0⟩)]
    "bbbbbbbbbbbbbbbbbbbbbbbb" "cccccccccccccccccccccccc" [("rating", Value.num 5)]
    ⟨"aaaaaaaaaaaaaaaaaaaaaaaa", "Lima", "Peru", Value.num 4, none, 0⟩
    (by decide) (by decide) (by decide) (by rfl) (by decide)).1

/-- C9: a review patch with no acting identity attached to the request
(`req.user` absent) never succeeds and never yields 403: the
`req.user.id` dereference faults and is surfaced as a 500 server
error, even on an existing review with allowed, valid fields. -/
theorem review_patch_no_identity_is_server_error
    (store : List (String × Review)) (id : String)
    (rupd : List (String × Value)) (r : Review)
    (hid : isValidObjectId id = true)
    (hallow : (keysOf rupd).all (fun k => reviewAllowedUpdates.contains k) = true)
    (hrat : ratingCheckPasses rupd = true)
    (hfound : storeGet store id = some r) :
    patchReview store none id rupd = (.error .serverError, store) ∧
    UpdateError.status .serverError = 500 := by
  refine ⟨?_, rfl⟩
  unfold patchReview
  rw [if_neg (by simp [hid]), if_neg (by rw [hallow]; simp), if_neg (by rw [hrat]; simp),
    hfound]

/-- Witness for C9: an unauthenticated patch of an existing review with
a single valid `rating` field returns the 500 server error with the
store unchanged. -/
theorem review_patch_no_identity_is_server_error_witness :
    patchReview
      [("cccccccccccccccccccccccc",
        ⟨"aaaaaaaaaaaaaaaaaaaaaaaa", "Lima", "Peru", Value.num 4, none, 0⟩)]
      none "cccccccccccccccccccccccc" [("rating", Value.num 5)] =
      (.error .serverError,
       [("cccccccccccccccccccccccc",
         ⟨"aaaaaaaaaaaaaaaaaaaaaaaa", "Lima", "Peru", Value.num 4, none, 0⟩)]) :=
  (review_patch_no_identity_is_server_error
    [("cccccccccccccccccccccccc",
      ⟨"aaaaaaaaaaaaaaaaaaaaaaaa", "Lima", "Peru", Value.num 4, none, 0⟩)]
    "cccccccccccccccccccccccc" [("rating", Value.num 5)]
    ⟨"aaaaaaaaaaaaaaaaaaaaaaaa", "Lima", "Peru", Value.num 4, none, 0⟩
    (by decide) (by decide) (by decide) (by rfl)).1

/-- C7: a login that fails because no identity matches the identifier
and a login that fails because the hash comparison fails produce the
identical response (status 400, message "Invalid Credentials"), so the
caller cannot tell which of identifier or secret was wrong. -/
theorem login_failures_indistinguishable
    (verify : String → String → Bool) (users1 users2 : List UserRec)
    (e1 u1 p1 e2 u2 p2 : String) (ur : UserRec)
    (hp1 : p1 ≠ "")
    (hid1 : (if e1 == "" then u1 else e1) ≠ "")
    (h1 : users1.find? (fun x => x.email == (if e1 == "" then u1 else e1)
            || x.username == (if e1 == "" then u1 else e1)) = none)
    (hp2 : p2 ≠ "")
    (hid2 : (if e2 == "" then u2 else e2) ≠ "")
    (h2 : users2.find? (fun x => x.email == (if e2 == "" then u2 else e2)
            || x.username == (if e2 == "" then u2 else e2)) = some ur)
    (hv : verify p2 ur.password = false) :
    login verify users1 e1 u1 p1 = .err 400 "Invalid Credentials" ∧
    login verify users2 e2 u2 p2 = .err 400 "Invalid Credentials" ∧
    login verify users1 e1 u1 p1 = login verify users2 e2 u2 p2 := by
  have hb1 : ((if e1 == "" then u1 else e1) == "") = false := beq_eq_false_iff_ne.mpr hid1
  have hbp1 : (p1 == "") = false := beq_eq_false_iff_ne.mpr hp1
  have hb2 : ((if e2 == "" then u2 else e2) == "") = false := beq_eq_false_iff_ne.mpr hid2
  have hbp2 : (p2 == "") = false := beq_eq_false_iff_ne.mpr hp2
  have l1 : login verify users1 e1 u1 p1 = .err 400 "Invalid Credentials" := by
    simp only [login]
    rw [if_neg (by rw [hb1, hbp1]; simp), h1]
  have l2 : login verify users2 e2 u2 p2 = .err 400 "Invalid Credentials" := by
    simp only [login]
    rw [if_neg (by rw [hb2, hbp2]; simp), h2]
    show (if verify p2 ur.password = true then AuthResult.ok 200 ur.id ur.username ur.email
          else .err 400 "Invalid Credentials") = .err 400 "Invalid Credentials"
    rw [hv]
    rfl
  exact ⟨l1, l2, l1.trans l2.symm⟩

/-- Witness for C7: an unknown email on an empty user store and a
wrong password for an existing user yield the same error response. -/
theorem login_failures_indistinguishable_witness :
    login (fun _ _ => false) [] "x@y.com" "" "secret1" = .err 400 "Invalid Credentials" ∧
    login (fun _ _ => false) [⟨"aaaaaaaaaaaaaaaaaaaaaaaa", "alice1", "a@b.com", "hash", 0⟩]
      "a@b.com" "" "secret2" = .err 400 "Invalid Credentials" :=
  ⟨(login_failures_indistinguishable (fun _ _ => false) []
      [⟨"aaaaaaaaaaaaaaaaaaaaaaaa", "alice1", "a@b.com", "hash", 0⟩]
      "x@y.com" "" "secret1" "a@b.com" "" "secret2"
      ⟨"aaaaaaaaaaaaaaaaaaaaaaaa", "alice1", "a@b.com", "hash", 0⟩
      (by decide) (by decide) (by rfl) (by decide) (by decide) (by rfl) (by rfl)).1,
   (login_failures_indistinguishable (fun _ _ => false) []
      [⟨"aaaaaaaaaaaaaaaaaaaaaaaa", "alice1", "a@b.com", "hash", 0⟩]
      "x@y.com" "" "secret1" "a@b.com" "" "secret2"
      ⟨"aaaaaaaaaaaaaaaaaaaaaaaa", "alice1", "a@b.com", "hash", 0⟩
      (by decide) (by decide) (by rfl) (by decide) (by decide) (by rfl) (by rfl)).2.1⟩

/-- C8: with all three registration inputs present and no duplicate
identity, a 5-character secret fails with the weak-credential error
and a 6-character secret succeeds (201), the user store unchanged in
both calls (the current register snapshot performs no save). -/
theorem register_secret_length_boundary
    (users : List UserRec) (newId username email p5 p6 : String)
    (hu : username ≠ "") (he : email ≠ "")
    (h5 : p5.length = 5) (h6 : p6.length = 6)
    (hdup : users.find? (fun u => u.email == email || u.username == username) = none) :
    register users newId username email p5 =
      (.err 400 "Password must be at least 6 characters long", users) ∧
    register users newId username email p6 = (.ok 201 newId username email, users) := by
  have hbu : (username == "") = false := beq_eq_false_iff_ne.mpr hu
  have hbe : (email == "") = false := beq_eq_false_iff_ne.mpr he
  have hb5 : (p5 == "") = false := by
    refine beq_eq_false_iff_ne.mpr (fun hh => ?_)
    rw [hh] at h5
    simp at h5
  have hb6 : (p6 == "") = false := by
    refine beq_eq_false_iff_ne.mpr (fun hh => ?_)
    rw [hh] at h6
    simp at h6
  constructor
  · unfold register
    rw [if_neg (by rw [hbu, hbe, hb5]; simp), if_pos (by rw [h5]; decide)]
  · unfold register
    rw [if_neg (by rw [hbu, hbe, hb6]; simp), if_neg (by rw [h6]; decide), hdup]

/-- Witness for C8 at the boundary: secret "12345" fails, "123456"
succeeds, with the empty user store unchanged. -/
theorem register_secret_length_boundary_witness :
    register [] "aaaaaaaaaaaaaaaaaaaaaaaa" "alice1" "a@b.com" "12345" =
      (.err 400 "Password must be at least 6 characters long", []) ∧
    register [] "aaaaaaaaaaaaaaaaaaaaaaaa" "alice1" "a@b.com" "123456" =
      (.ok 201 "aaaaaaaaaaaaaaaaaaaaaaaa" "alice1" "a@b.com", []) :=
  register_secret_length_boundary [] "aaaaaaaaaaaaaaaaaaaaaaaa" "alice1" "a@b.com"
    "12345" "123456" (by decide) (by decide) (by decide) (by decide) (by rfl)

/-- The success path of the trip patch route: valid id, allow-listed
keys, valid values, existing trip. -/
theorem patchTrip_success
    (ts : List (String × Trip)) (tid : String) (tupd : List (String × Value)) (t : Trip)
    (htid : isValidObjectId tid = true)
    (htkeys : (keysOf tupd).all (fun k => tripAllowedUpdates.contains k) = true)
    (htvalid : tupd.all (fun kv => tripUpdateFieldValid kv.1 kv.2) = true)
    (htfound : storeGet ts tid = some t) :
    patchTrip ts tid tupd =
      (.ok (applyTripUpdates t tupd), storeSet ts tid (applyTripUpdates t tupd)) := by
  unfold patchTrip
  rw [if_neg (by simp [htid]), if_neg (by rw [htkeys]; simp), htfound]
  show (if (tupd.all fun kv => tripUpdateFieldValid kv.1 kv.2) = false then
          (Except.error UpdateError.validationError, ts)
        else (Except.ok (applyTripUpdates t tupd), storeSet ts tid (applyTripUpdates t tupd)))
      = (Except.ok (applyTripUpdates t tupd), storeSet ts tid (applyTripUpdates t tupd))
  rw [if_neg (by rw [htvalid]; simp)]

/-- The success path of the review patch route: valid id, allow-listed
keys, rating guard passed, existing review, acting identity equal to
the owner, resulting document valid. -/
theorem patchReview_success
    (rs : List (String × Review)) (rid : String) (rupd : List (String × Value)) (r : Review)
    (hrid : isValidObjectId rid = true)
    (hrkeys : (keysOf rupd).all (fun k => reviewAllowedUpdates.contains k) = true)
    (hrrat : ratingCheckPasses rupd = true)
    (hrfound : storeGet rs rid = some r)
    (hrdoc : reviewDocValid (applyReviewUpdates r rupd) = true) :
    patchReview rs (some r.user) rid rupd =
      (.ok (applyReviewUpdates r rupd), storeSet rs rid (applyReviewUpdates r rupd)) := by
  unfold patchReview
  rw [if_neg (by simp [hrid]), if_neg (by rw [hrkeys]; simp), if_neg (by rw [hrrat]; simp),
    hrfound]
  show (if (r.user == r.user) = false then (Except.error UpdateError.forbidden, rs)
        else
          if reviewDocValid (applyReviewUpdates r rupd) = false then
            (Except.error UpdateError.validationError, rs)
          else (Except.ok (applyReviewUpdates r rupd),
                storeSet rs rid (applyReviewUpdates r rupd)))
      = (Except.ok (applyReviewUpdates r rupd), storeSet rs rid (applyReviewUpdates r rupd))
  rw [if_neg (by simp), if_neg (by rw [hrdoc]; simp)]

/-- C2: a PATCH whose requested fields are all allow-listed and valid
succeeds, persists exactly the patched record, and every field not
named in the request keeps its pre-call value (owner reference, city,
country and creation timestamp included), for trips and reviews. -/
theorem patch_frame_only_named_fields_change
    (ts : List (String × Trip)) (tid : String) (tupd : List (String × Value)) (t : Trip)
    (rs : List (String × Review)) (rid : String) (rupd : List (String × Value)) (r : Review)
    (htid : isValidObjectId tid = true)
    (htkeys : (keysOf tupd).all (fun k => tripAllowedUpdates.contains k) = true)
    (htvalid : tupd.all (fun kv => tripUpdateFieldValid kv.1 kv.2) = true)
    (htfound : storeGet ts tid = some t)
    (hrid : isValidObjectId rid = true)
    (hrkeys : (keysOf rupd).all (fun k => reviewAllowedUpdates.contains k) = true)
    (hrrat : ratingCheckPasses rupd = true)
    (hrfound : storeGet rs rid = some r)
    (hrdoc : reviewDocValid (applyReviewUpdates r rupd) = true) :
    (patchTrip ts tid tupd =
       (.ok (applyTripUpdates t tupd), storeSet ts tid (applyTripUpdates t tupd)) ∧
     storeGet (storeSet ts tid (applyTripUpdates t tupd)) tid =
       some (applyTripUpdates t tupd) ∧
     ∀ k, k ∉ keysOf tupd → (applyTripUpdates t tupd).getField k = t.getField k) ∧
    (patchReview rs (some r.user) rid rupd =
       (.ok (applyReviewUpdates r rupd), storeSet rs rid (applyReviewUpdates r rupd)) ∧
     storeGet (storeSet rs rid (applyReviewUpdates r rupd)) rid =
       some (applyReviewUpdates r rupd) ∧
     ∀ k, k ∉ keysOf rupd → (applyReviewUpdates r rupd).getField k = r.getField k) := by
  refine ⟨⟨patchTrip_success ts tid tupd t htid htkeys htvalid htfound, ?_, ?_⟩,
          ⟨patchReview_success rs rid rupd r hrid hrkeys hrrat hrfound hrdoc, ?_, ?_⟩⟩
  · exact storeGet_storeSet_self ts tid _ (by rw [htfound]; rfl)
  · exact fun k hk => applyTripUpdates_getField_not_mem tupd t k hk
  · exact storeGet_storeSet_self rs rid _ (by rw [hrfound]; rfl)
  · exact fun k hk => applyReviewUpdates_getField_not_mem rupd r k hk

/-- Witness for C2: patching `price` on a stored trip and `rating` on
a stored review persists exactly those changes, and the `city` field —
not named in either request — keeps its pre-call value. -/
theorem patch_frame_only_named_fields_change_witness :
    patchTrip [("dddddddddddddddddddddddd",
        ⟨"aaaaaaaaaaaaaaaaaaaaaaaa", "Lima", "Peru", 20, -12, -77, none, none, 0⟩)]
      "dddddddddddddddddddddddd" [("price", Value.num 30)] =
      (.ok ⟨"aaaaaaaaaaaaaaaaaaaaaaaa", "Lima", "Peru", 30, -12, -77, none, none, 0⟩,
       [("dddddddddddddddddddddddd",
         ⟨"aaaaaaaaaaaaaaaaaaaaaaaa", "Lima", "Peru", 30, -12, -77, none, none, 0⟩)]) ∧
    patchReview [("cccccccccccccccccccccccc",
        ⟨"aaaaaaaaaaaaaaaaaaaaaaaa", "Lima", "Peru", Value.num 4, none, 0⟩)]
      (some "aaaaaaaaaaaaaaaaaaaaaaaa") "cccccccccccccccccccccccc"
      [("rating", Value.num 5)] =
      (.ok ⟨"aaaaaaaaaaaaaaaaaaaaaaaa", "Lima", "Peru", Value.num 5, none, 0⟩,
       [("cccccccccccccccccccccccc",
         ⟨"aaaaaaaaaaaaaaaaaaaaaaaa", "Lima", "Peru", Value.num 5, none, 0⟩)]) :=
  ⟨(patch_frame_only_named_fields_change
      [("dddddddddddddddddddddddd",
        ⟨"aaaaaaaaaaaaaaaaaaaaaaaa", "Lima", "Peru", 20, -12, -77, none, none, 0⟩)]
      "dddddddddddddddddddddddd" [("price", Value.num 30)]
      ⟨"aaaaaaaaaaaaaaaaaaaaaaaa", "Lima", "Peru", 20, -12, -77, none, none, 0⟩
      [("cccccccccccccccccccccccc",
        ⟨"aaaaaaaaaaaaaaaaaaaaaaaa", "Lima", "Peru", Value.num 4, none, 0⟩)]
      "cccccccccccccccccccccccc" [("rating", Value.num 5)]
      ⟨"aaaaaaaaaaaaaaaaaaaaaaaa", "Lima", "Peru", Value.num 4, none, 0⟩
      (by decide) (by decide) (by decide) (by rfl) (by decide) (by decide) (by decide)
      (by rfl) (by decide)).1.1,
   (patch_frame_only_named_fields_change
      [("dddddddddddddddddddddddd",
        ⟨"aaaaaaaaaaaaaaaaaaaaaaaa", "Lima", "Peru", 20, -12, -77, none, none, 0⟩)]
      "dddddddddddddddddddddddd" [("price", Value.num 30)]
      ⟨"aaaaaaaaaaaaaaaaaaaaaaaa", "Lima", "Peru", 20, -12, -77, none, none, 0⟩
      [("cccccccccccccccccccccccc",
        ⟨"aaaaaaaaaaaaaaaaaaaaaaaa", "Lima", "Peru", Value.num 4, none, 0⟩)]
      "cccccccccccccccccccccccc" [("rating", Value.num 5)]
      ⟨"aaaaaaaaaaaaaaaaaaaaaaaa", "Lima", "Peru", Value.num 4, none, 0⟩
      (by decide) (by decide) (by decide) (by rfl) (by decide) (by decide) (by decide)
      (by rfl) (by decide)).2.1⟩

/-- C10: an empty PATCH payload against an existing trip or review is
accepted (the allow-list check passes vacuously), returns the record
with every field equal to its pre-call value, and writes the record
back unchanged — despite the spec's stated input constraint that the
requested field set be non-empty. -/
theorem empty_patch_accepted_noop
    (ts : List (String × Trip)) (tid : String) (t : Trip)
    (rs : List (String × Review)) (rid : String) (r : Review)
    (htid : isValidObjectId tid = true)
    (hrid : isValidObjectId rid = true)
    (htfound : storeGet ts tid = some t)
    (hrfound : storeGet rs rid = some r)
    (hrdoc : reviewDocValid r = true) :
    patchTrip ts tid [] = (.ok t, storeSet ts tid t) ∧
    storeGet (storeSet ts tid t) tid = some t ∧
    patchReview rs (some r.user) rid [] = (.ok r, storeSet rs rid r) ∧
    storeGet (storeSet rs rid r) rid = some r := by
  refine ⟨patchTrip_success ts tid [] t htid rfl rfl htfound, ?_,
          patchReview_success rs rid [] r hrid rfl rfl hrfound hrdoc, ?_⟩
  · exact storeGet_storeSet_self ts tid t (by rw [htfound]; rfl)
  · exact storeGet_storeSet_self rs rid r (by rw [hrfound]; rfl)

/-- Witness for C10: an empty patch of a stored trip and of a stored
review returns 200 with the records unchanged. -/
theorem empty_patch_accepted_noop_witness :
    patchTrip [("dddddddddddddddddddddddd",
        ⟨"aaaaaaaaaaaaaaaaaaaaaaaa", "Lima", "Peru", 20, -12, -77, none, none, 0⟩)]
      "dddddddddddddddddddddddd" [] =
      (.ok ⟨"aaaaaaaaaaaaaaaaaaaaaaaa", "Lima", "Peru", 20, -12, -77, none, none, 0⟩,
       [("dddddddddddddddddddddddd",
         ⟨"aaaaaaaaaaaaaaaaaaaaaaaa", "Lima", "Peru", 20, -12, -77, none, none, 0⟩)]) ∧
    patchReview [("cccccccccccccccccccccccc",
        ⟨"aaaaaaaaaaaaaaaaaaaaaaaa", "Lima", "Peru", Value.num 4, none, 0⟩)]
      (some "aaaaaaaaaaaaaaaaaaaaaaaa") "cccccccccccccccccccccccc" [] =
      (.ok ⟨"aaaaaaaaaaaaaaaaaaaaaaaa", "Lima", "Peru", Value.num 4, none, 0⟩,
       [("cccccccccccccccccccccccc",
         ⟨"aaaaaaaaaaaaaaaaaaaaaaaa", "Lima", "Peru", Value.num 4, none, 0⟩)]) :=
  ⟨(empty_patch_accepted_noop
      [("dddddddddddddddddddddddd",
        ⟨"aaaaaaaaaaaaaaaaaaaaaaaa", "Lima", "Peru", 20, -12, -77, none, none, 0⟩)]
      "dddddddddddddddddddddddd"
      ⟨"aaaaaaaaaaaaaaaaaaaaaaaa", "Lima", "Peru", 20, -12, -77, none, none, 0⟩
      [("cccccccccccccccccccccccc",
        ⟨"aaaaaaaaaaaaaaaaaaaaaaaa", "Lima", "Peru", Value.num 4, none, 0⟩)]
      "cccccccccccccccccccccccc"
      ⟨"aaaaaaaaaaaaaaaaaaaaaaaa", "Lima", "Peru", Value.num 4, none, 0⟩
      (by decide) (by decide) (by rfl) (by rfl) (by decide)).1,
   (empty_patch_accepted_noop
      [("dddddddddddddddddddddddd",
        ⟨"aaaaaaaaaaaaaaaaaaaaaaaa", "Lima", "Peru", 20, -12, -77, none, none, 0⟩)]
      "dddddddddddddddddddddddd"
      ⟨"aaaaaaaaaaaaaaaaaaaaaaaa", "Lima", "Peru", 20, -12, -77, none, none, 0⟩
      [("cccccccccccccccccccccccc",
        ⟨"aaaaaaaaaaaaaaaaaaaaaaaa", "Lima", "Peru", Value.num 4, none, 0⟩)]
      "cccccccccccccccccccccccc"
      ⟨"aaaaaaaaaaaaaaaaaaaaaaaa", "Lima", "Peru", Value.num 4, none, 0⟩
      (by decide) (by decide) (by rfl) (by rfl) (by decide)).2.2.1⟩

/-- C6 (evaluation at the failing input): the spec's own examples hold
— filter "Paris" matches stored "paris" and rejects "Paris2" — but the
route interpolates the raw query value into the regex without
escaping, so the filter value "Pari." (a `.` wildcard) also matches
the stored city "Parix", which is not case-insensitively equal to the
filter; the listed result set therefore contains that review. -/
theorem review_filter_dot_wildcard_eval :
    anchoredCiTest "Paris" "paris" = true ∧
    anchoredCiTest "Paris" "Paris2" = false ∧
    anchoredCiTest "Pari." "Parix" = true ∧
    ciStringEq "Pari." "Parix" = false ∧
    listReviewsQ [("cccccccccccccccccccccccc",
        ⟨"aaaaaaaaaaaaaaaaaaaaaaaa", "Parix", "France", Value.num 4, none, 0⟩)]
      (some "Pari.") none none =
      .ok [("cccccccccccccccccccccccc",
        ⟨"aaaaaaaaaaaaaaaaaaaaaaaa", "Parix", "France", Value.num 4, none, 0⟩)] := by
  refine ⟨by decide, by decide, by decide, by decide, by rfl⟩

/-- A trip patch either leaves the store untouched (any failure path)
or overwrites the found record with an allow-listed patch of itself. -/
theorem patchTrip_store_cases (ts : List (String × Trip)) (tid : String)
    (tupd : List (String × Value)) :
    (patchTrip ts tid tupd).2 = ts ∨
    ∃ t0, storeGet ts tid = some t0 ∧
      (keysOf tupd).all (fun k => tripAllowedUpdates.contains k) = true ∧
      (patchTrip ts tid tupd).2 = storeSet ts tid (applyTripUpdates t0 tupd) := by
  by_cases hid : isValidObjectId tid = false
  · left
    unfold patchTrip
    rw [if_pos hid]
  · by_cases hall : ((keysOf tupd).all fun k => tripAllowedUpdates.contains k) = false
    · left
      unfold patchTrip
      rw [if_neg hid, if_pos hall]
    · cases hfound : storeGet ts tid with
      | none =>
        left
        unfold patchTrip
        rw [if_neg hid, if_neg hall, hfound]
      | some t0 =>
        by_cases hval : (tupd.all fun kv => tripUpdateFieldValid kv.1 kv.2) = false
        · left
          unfold patchTrip
          rw [if_neg hid, if_neg hall, hfound]
          show (if (tupd.all fun kv => tripUpdateFieldValid kv.1 kv.2) = false then
                  (Except.error UpdateError.validationError, ts)
                else (Except.ok (applyTripUpdates t0 tupd),
                      storeSet ts tid (applyTripUpdates t0 tupd))).2 = ts
          rw [if_pos hval]
        · right
          refine ⟨t0, rfl, ?_, ?_⟩
          · cases hh : (keysOf tupd).all fun k => tripAllowedUpdates.contains k
            · exact absurd hh hall
            · rfl
          · unfold patchTrip
            rw [if_neg hid, if_neg hall, hfound]
            show (if (tupd.all fun kv => tripUpdateFieldValid kv.1 kv.2) = false then
                    (Except.error UpdateError.validationError, ts)
                  else (Except.ok (applyTripUpdates t0 tupd),
                        storeSet ts tid (applyTripUpdates t0 tupd))).2 =
                storeSet ts tid (applyTripUpdates t0 tupd)
            rw [if_neg hval]

/-- A review patch either leaves the store untouched (any failure
path) or overwrites the found record with an allow-listed patch of
itself. -/
theorem patchReview_store_cases (rs : List (String × Review)) (acting : Option String)
    (rid : String) (rupd : List (String × Value)) :
    (patchReview rs acting rid rupd).2 = rs ∨
    ∃ r0, storeGet rs rid = some r0 ∧
      (keysOf rupd).all (fun k => reviewAllowedUpdates.contains k) = true ∧
      (patchReview rs acting rid rupd).2 = storeSet rs rid (applyReviewUpdates r0 rupd) := by
  by_cases hid : isValidObjectId rid = false
  · left
    unfold patchReview
    rw [if_pos hid]
  · by_cases hall : ((keysOf rupd).all fun k => reviewAllowedUpdates.contains k) = false
    · left
      unfold patchReview
      rw [if_neg hid, if_pos hall]
    · by_cases hrat : ratingCheckPasses rupd = false
      · left
        unfold patchReview
        rw [if_neg hid, if_neg hall, if_pos hrat]
      · cases hfound : storeGet rs rid with
        | none =>
          left
          unfold patchReview
          rw [if_neg hid, if_neg hall, if_neg hrat, hfound]
        | some r0 =>
          cases acting with
          | none =>
            left
            unfold patchReview
            rw [if_neg hid, if_neg hall, if_neg hrat, hfound]
          | some uid =>
            by_cases hown : (r0.user == uid) = false
            · left
              unfold patchReview
              rw [if_neg hid, if_neg hall, if_neg hrat, hfound]
              show (if (r0.user == uid) = false then (Except.error UpdateError.forbidden, rs)
                    else
                      if reviewDocValid (applyReviewUpdates r0 rupd) = false then
                        (Except.error UpdateError.validationError, rs)
                      else (Except.ok (applyReviewUpdates r0 rupd),
                            storeSet rs rid (applyReviewUpdates r0 rupd))).2 = rs
              rw [if_pos hown]
            · by_cases hdoc : reviewDocValid (applyReviewUpdates r0 rupd) = false
              · left
                unfold patchReview
                rw [if_neg hid, if_neg hall, if_neg hrat, hfound]
                show (if (r0.user == uid) = false then (Except.error UpdateError.forbidden, rs)
                      else
                        if reviewDocValid (applyReviewUpdates r0 rupd) = false then
                          (Except.error UpdateError.validationError, rs)
                        else (Except.ok (applyReviewUpdates r0 rupd),
                              storeSet rs rid (applyReviewUpdates r0 rupd))).2 = rs
                rw [if_neg hown, if_pos hdoc]
              · right
                refine ⟨r0, rfl, ?_, ?_⟩
                · cases hh : (keysOf rupd).all fun k => reviewAllowedUpdates.contains k
                  · exact absurd hh hall
                  · rfl
                · unfold patchReview
                  rw [if_neg hid, if_neg hall, if_neg hrat, hfound]
                  show (if (r0.user == uid) = false then
                          (Except.error UpdateError.forbidden, rs)
                        else
                          if reviewDocValid (applyReviewUpdates r0 rupd) = false then
                            (Except.error UpdateError.validationError, rs)
                          else (Except.ok (applyReviewUpdates r0 rupd),
                                storeSet rs rid (applyReviewUpdates r0 rupd))).2 =
                      storeSet rs rid (applyReviewUpdates r0 rupd)
                  rw [if_neg hown, if_neg hdoc]

/-- A trip creation either leaves the store untouched (any failure
path) or prepends a fresh record whose owner reference is the given
`userId`. -/
theorem createTrip_store_cases (users : List UserRec) (store : List (String × Trip))
    (newId userId city country : String) (price lat lon : Option ℚ)
    (imagePath notes : Option String) (now : ℚ) :
    (createTrip users store newId userId city country price lat lon imagePath notes now).2 =
      store ∨
    ∃ t0, storeGet store newId = none ∧ t0.user = userId ∧
      (createTrip users store newId userId city country price lat lon imagePath notes now).2 =
        (newId, t0) :: store := by
  cases price with
  | none => left; rfl
  | some p =>
    cases lat with
    | none => left; rfl
    | some la =>
      cases lon with
      | none => left; rfl
      | some lo =>
        simp only [createTrip]
        by_cases hmiss : (userId == "" || city == "" || country == "") = true
        · left
          rw [if_pos hmiss]
        · rw [if_neg hmiss]
          by_cases hid : isValidObjectId userId = false
          · left
            rw [if_pos hid]
          · rw [if_neg hid]
            cases hfind : users.find? (fun u => u.id == userId) with
            | none =>
              left
              rfl
            | some u0 =>
              show ((if tripDocValid
                      ⟨userId, city, country, p, la, lo, imagePath, notes, now⟩ = false then
                      (Except.error UpdateError.validationError, store)
                    else
                      match storeGet store newId with
                      | some _ => (Except.error UpdateError.serverError, store)
                      | none =>
                        (Except.ok
                          (⟨userId, city, country, p, la, lo, imagePath, notes, now⟩ : Trip),
                         (newId,
                          (⟨userId, city, country, p, la, lo, imagePath, notes, now⟩ : Trip))
                           :: store)).2 = store) ∨
                  ∃ t0, storeGet store newId = none ∧ t0.user = userId ∧
                    (if tripDocValid
                        ⟨userId, city, country, p, la, lo, imagePath, notes, now⟩ = false then
                        (Except.error UpdateError.validationError, store)
                      else
                        match storeGet store newId with
                        | some _ => (Except.error UpdateError.serverError, store)
                        | none =>
                          (Except.ok
                            (⟨userId, city, country, p, la, lo, imagePath, notes, now⟩ : Trip),
                           (newId,
                            (⟨userId, city, country, p, la, lo, imagePath, notes, now⟩ : Trip))
                             :: store)).2 = (newId, t0) :: store
              by_cases hdoc :
                  tripDocValid ⟨userId, city, country, p, la, lo, imagePath, notes, now⟩ = false
              · left
                rw [if_pos hdoc]
              · rw [if_neg hdoc]
                cases hdup : storeGet store newId with
                | some t1 => left; rfl
                | none =>
                  right
                  exact ⟨⟨userId, city, country, p, la, lo, imagePath, notes, now⟩,
                    rfl, rfl, rfl⟩

/-- A review creation either leaves the store untouched (any failure
path) or prepends a fresh record whose owner reference is the given
`userId`. -/
theorem createReview_store_cases (users : List UserRec) (store : List (String × Review))
    (newId userId city country : String) (rating : Value) (comment : Option String) (now : ℚ) :
    (createReview users store newId userId city country rating comment now).2 = store ∨
    ∃ r0, storeGet store newId = none ∧ r0.user = userId ∧
      (createReview users store newId userId city country rating comment now).2 =
        (newId, r0) :: store := by
  simp only [createReview]
  by_cases hmiss : (userId == "" || city == "" || country == "" || rating == Value.undefined) = true
  · left
    rw [if_pos hmiss]
  · rw [if_neg hmiss]
    by_cases hid : isValidObjectId userId = false
    · left
      rw [if_pos hid]
    · rw [if_neg hid]
      by_cases hro : ratingValueOk rating = false
      · left
        rw [if_pos hro]
      · rw [if_neg hro]
        cases hfind : users.find? (fun u => u.id == userId) with
        | none =>
          left
          rfl
        | some u0 =>
          show ((if reviewDocValid ⟨userId, city, country, rating, comment, now⟩ = false then
                  (Except.error UpdateError.validationError, store)
                else
                  match storeGet store newId with
                  | some _ => (Except.error UpdateError.serverError, store)
                  | none =>
                    (Except.ok (⟨userId, city, country, rating, comment, now⟩ : Review),
                     (newId, (⟨userId, city, country, rating, comment, now⟩ : Review))
                       :: store)).2 = store) ∨
              ∃ r0, storeGet store newId = none ∧ r0.user = userId ∧
                (if reviewDocValid ⟨userId, city, country, rating, comment, now⟩ = false then
                    (Except.error UpdateError.validationError, store)
                  else
                    match storeGet store newId with
                    | some _ => (Except.error UpdateError.serverError, store)
                    | none =>
                      (Except.ok (⟨userId, city, country, rating, comment, now⟩ : Review),
                       (newId, (⟨userId, city, country, rating, comment, now⟩ : Review))
                         :: store)).2 = (newId, r0) :: store
          by_cases hdoc : reviewDocValid ⟨userId, city, country, rating, comment, now⟩ = false
          · left
            rw [if_pos hdoc]
          · rw [if_neg hdoc]
            cases hdup : storeGet store newId with
            | some r1 => left; rfl
            | none =>
              right
              exact ⟨⟨userId, city, country, rating, comment, now⟩, rfl, rfl, rfl⟩

/-- A trip patch keeps every already-stored record present with its
owner reference unchanged. -/
theorem patchTrip_user_mono (ts : List (String × Trip)) (tid : String)
    (tupd : List (String × Value)) (id : String) (t : Trip)
    (h1 : storeGet ts id = some t) :
    ∃ t1, storeGet (patchTrip ts tid tupd).2 id = some t1 ∧ t1.user = t.user := by
  rcases patchTrip_store_cases ts tid tupd with hc | ⟨t0, hfound, hall, hc⟩
  · exact ⟨t, by rw [hc]; exact h1, rfl⟩
  · by_cases hij : id = tid
    · subst hij
      rw [h1] at hfound
      injection hfound with h0
      refine ⟨applyTripUpdates t0 tupd, ?_, ?_⟩
      · rw [hc]
        exact storeGet_storeSet_self ts id _ (by rw [h1]; rfl)
      · rw [applyTripUpdates_user tupd t0 hall, ← h0]
    · exact ⟨t, by rw [hc, storeGet_storeSet_ne ts tid id _ hij]; exact h1, rfl⟩

/-- A review patch keeps every already-stored record present with its
owner reference unchanged. -/
theorem patchReview_user_mono (rs : List (String × Review)) (acting : Option String)
    (rid : String) (rupd : List (String × Value)) (id : String) (r : Review)
    (h1 : storeGet rs id = some r) :
    ∃ r1, storeGet (patchReview rs acting rid rupd).2 id = some r1 ∧ r1.user = r.user := by
  rcases patchReview_store_cases rs acting rid rupd with hc | ⟨r0, hfound, hall, hc⟩
  · exact ⟨r, by rw [hc]; exact h1, rfl⟩
  · by_cases hij : id = rid
    · subst hij
      rw [h1] at hfound
      injection hfound with h0
      refine ⟨applyReviewUpdates r0 rupd, ?_, ?_⟩
      · rw [hc]
        exact storeGet_storeSet_self rs id _ (by rw [h1]; rfl)
      · rw [applyReviewUpdates_user rupd r0 hall, ← h0]
    · exact ⟨r, by rw [hc, storeGet_storeSet_ne rs rid id _ hij]; exact h1, rfl⟩

/-- A trip creation keeps every already-stored record present with its
owner reference unchanged. -/
theorem createTrip_user_mono (users : List UserRec) (store : List (String × Trip))
    (newId userId city country : String) (price lat lon : Option ℚ)
    (imagePath notes : Option String) (now : ℚ) (id : String) (t : Trip)
    (h1 : storeGet store id = some t) :
    ∃ t1, storeGet
        (createTrip users store newId userId city country price lat lon imagePath notes now).2
        id = some t1 ∧ t1.user = t.user := by
  rcases createTrip_store_cases users store newId userId city country price lat lon
      imagePath notes now with hc | ⟨t0, hnone, hu0, hc⟩
  · exact ⟨t, by rw [hc]; exact h1, rfl⟩
  · have hne : newId ≠ id := by
      intro he
      rw [he] at hnone
      rw [hnone] at h1
      cases h1
    refine ⟨t, ?_, rfl⟩
    rw [hc]
    show (if newId = id then some t0 else storeGet store id) = some t
    rw [if_neg hne]
    exact h1

/-- A review creation keeps every already-stored record present with
its owner reference unchanged. -/
theorem createReview_user_mono (users : List UserRec) (store : List (String × Review))
    (newId userId city country : String) (rating : Value) (comment : Option String) (now : ℚ)
    (id : String) (r : Review) (h1 : storeGet store id = some r) :
    ∃ r1, storeGet
        (createReview users store newId userId city country rating comment now).2
        id = some r1 ∧ r1.user = r.user := by
  rcases createReview_store_cases users store newId userId city country rating comment now
      with hc | ⟨r0, hnone, hu0, hc⟩
  · exact ⟨r, by rw [hc]; exact h1, rfl⟩
  · have hne : newId ≠ id := by
      intro he
      rw [he] at hnone
      rw [hnone] at h1
      cases h1
    refine ⟨r, ?_, rfl⟩
    rw [hc]
    show (if newId = id then some r0 else storeGet store id) = some r
    rw [if_neg hne]
    exact h1

/-- One handled request keeps every stored trip present with its owner
reference unchanged. -/
theorem step_trips_user_mono (op : Op) (s : AppState) (id : String) (t : Trip)
    (h1 : storeGet s.trips id = some t) :
    ∃ t1, storeGet (step s op).trips id = some t1 ∧ t1.user = t.user := by
  cases op with
  | createTrip newId userId city country price lat lon imagePath notes now =>
    exact createTrip_user_mono s.users s.trips newId userId city country price lat lon
      imagePath notes now id t h1
  | patchTrip pid upd => exact patchTrip_user_mono s.trips pid upd id t h1
  | createReview _ _ _ _ _ _ _ => exact ⟨t, h1, rfl⟩
  | patchReview _ _ _ => exact ⟨t, h1, rfl⟩
  | listTrips _ => exact ⟨t, h1, rfl⟩
  | getTrip _ => exact ⟨t, h1, rfl⟩
  | listReviews _ _ _ => exact ⟨t, h1, rfl⟩
  | getReview _ => exact ⟨t, h1, rfl⟩

/-- One handled request keeps every stored review present with its
owner reference unchanged. -/
theorem step_reviews_user_mono (op : Op) (s : AppState) (id : String) (r : Review)
    (h1 : storeGet s.reviews id = some r) :
    ∃ r1, storeGet (step s op).reviews id = some r1 ∧ r1.user = r.user := by
  cases op with
  | createReview newId userId city country rating comment now =>
    exact createReview_user_mono s.users s.reviews newId userId city country rating
      comment now id r h1
  | patchReview acting pid upd => exact patchReview_user_mono s.reviews acting pid upd id r h1
  | createTrip _ _ _ _ _ _ _ _ _ _ => exact ⟨r, h1, rfl⟩
  | patchTrip _ _ => exact ⟨r, h1, rfl⟩
  | listTrips _ => exact ⟨r, h1, rfl⟩
  | getTrip _ => exact ⟨r, h1, rfl⟩
  | listReviews _ _ _ => exact ⟨r, h1, rfl⟩
  | getReview _ => exact ⟨r, h1, rfl⟩

/-- Any sequence of requests keeps every stored trip present with its
owner reference unchanged. -/
theorem runOps_trips_user_mono (ops : List Op) (s : AppState) (id : String) (t : Trip)
    (h1 : storeGet s.trips id = some t) :
    ∃ t1, storeGet (runOps s ops).trips id = some t1 ∧ t1.user = t.user := by
  induction ops generalizing s t with
  | nil => exact ⟨t, h1, rfl⟩
  | cons op rest ih =>
    obtain ⟨t1, hmid, hu⟩ := step_trips_user_mono op s id t h1
    obtain ⟨t2, hfin, hu2⟩ := ih (step s op) t1 hmid
    exact ⟨t2, hfin, hu2.trans hu⟩

/-- Any sequence of requests keeps every stored review present with
its owner reference unchanged. -/
theorem runOps_reviews_user_mono (ops : List Op) (s : AppState) (id : String) (r : Review)
    (h1 : storeGet s.reviews id = some r) :
    ∃ r1, storeGet (runOps s ops).reviews id = some r1 ∧ r1.user = r.user := by
  induction ops generalizing s r with
  | nil => exact ⟨r, h1, rfl⟩
  | cons op rest ih =>
    obtain ⟨r1, hmid, hu⟩ := step_reviews_user_mono op s id r h1
    obtain ⟨r2, hfin, hu2⟩ := ih (step s op) r1 hmid
    exact ⟨r2, hfin, hu2.trans hu⟩

/-- C5: across any sequence of system operations (creation, partial
update, query), a stored trip's or review's owner reference equals the
value set at its creation and is never reassigned: any record present
before and after the sequence has the same owner; a successful
creation stores the given owner id; and the owner field is in neither
PATCH allow-list. -/
theorem owner_reference_immutable (ops : List Op) (s : AppState) (id : String) :
    (∀ t t', storeGet s.trips id = some t →
       storeGet (runOps s ops).trips id = some t' → t'.user = t.user) ∧
    (∀ r r', storeGet s.reviews id = some r →
       storeGet (runOps s ops).reviews id = some r' → r'.user = r.user) ∧
    tripAllowedUpdates.contains "user" = false ∧
    reviewAllowedUpdates.contains "user" = false ∧
    (∀ userId city country price lat lon imagePath notes now t,
       storeGet s.trips id = none →
       storeGet (step s (.createTrip id userId city country price lat lon
         imagePath notes now)).trips id = some t →
       t.user = userId) ∧
    (∀ userId city country rating comment now r,
       storeGet s.reviews id = none →
       storeGet (step s (.createReview id userId city country rating comment now)).reviews id =
         some r →
       r.user = userId) := by
  refine ⟨?_, ?_, by decide, by decide, ?_, ?_⟩
  · intro t t' h1 h2
    obtain ⟨t1, hfin, hu⟩ := runOps_trips_user_mono ops s id t h1
    rw [h2] at hfin
    injection hfin with h
    rw [h]
    exact hu
  · intro r r' h1 h2
    obtain ⟨r1, hfin, hu⟩ := runOps_reviews_user_mono ops s id r h1
    rw [h2] at hfin
    injection hfin with h
    rw [h]
    exact hu
  · intro userId city country price lat lon imagePath notes now t hnone h2
    have h2' : storeGet (createTrip s.users s.trips id userId city country price lat lon
        imagePath notes now).2 id = some t := h2
    rcases createTrip_store_cases s.users s.trips id userId city country price lat lon
        imagePath notes now with hc | ⟨t0, hn0, hu0, hc⟩
    · rw [hc, hnone] at h2'
      cases h2'
    · rw [hc] at h2'
      have h2'' : (if id = id then some t0 else storeGet s.trips id) = some t := h2'
      rw [if_pos rfl] at h2''
      injection h2'' with h
      rw [← h]
      exact hu0
  · intro userId city country rating comment now r hnone h2
    have h2' : storeGet (createReview s.users s.reviews id userId city country rating
        comment now).2 id = some r := h2
    rcases createReview_store_cases s.users s.reviews id userId city country rating
        comment now with hc | ⟨r0, hn0, hu0, hc⟩
    · rw [hc, hnone] at h2'
      cases h2'
    · rw [hc] at h2'
      have h2'' : (if id = id then some r0 else storeGet s.reviews id) = some r := h2'
      rw [if_pos rfl] at h2''
      injection h2'' with h
      rw [← h]
      exact hu0

/-- Witness for C5: after a price patch and a rating patch run against
a one-trip, one-review state, the stored records' owner references
equal their pre-sequence values. -/
theorem owner_reference_immutable_witness :
    Trip.user ⟨"aaaaaaaaaaaaaaaaaaaaaaaa", "Lima", "Peru", 30, -12, -77, none, none, 0⟩ =
      Trip.user ⟨"aaaaaaaaaaaaaaaaaaaaaaaa", "Lima", "Peru", 20, -12, -77, none, none, 0⟩ ∧
    Review.user ⟨"aaaaaaaaaaaaaaaaaaaaaaaa", "Lima", "Peru", Value.num 5, none, 0⟩ =
      Review.user ⟨"aaaaaaaaaaaaaaaaaaaaaaaa", "Lima", "Peru", Value.num 4, none, 0⟩ :=
  ⟨(owner_reference_immutable
      [Op.patchTrip "dddddddddddddddddddddddd" [("price", Value.num 30)],
       Op.patchReview (some "aaaaaaaaaaaaaaaaaaaaaaaa") "cccccccccccccccccccccccc"
         [("rating", Value.num 5)]]
      ⟨[], [("dddddddddddddddddddddddd",
             ⟨"aaaaaaaaaaaaaaaaaaaaaaaa", "Lima", "Peru", 20, -12, -77, none, none, 0⟩)],
           [("cccccccccccccccccccccccc",
             ⟨"aaaaaaaaaaaaaaaaaaaaaaaa", "Lima", "Peru", Value.num 4, none, 0⟩)]⟩
      "dddddddddddddddddddddddd").1
      ⟨"aaaaaaaaaaaaaaaaaaaaaaaa", "Lima", "Peru", 20, -12, -77, none, none, 0⟩
      ⟨"aaaaaaaaaaaaaaaaaaaaaaaa", "Lima", "Peru", 30, -12, -77, none, none, 0⟩
      (by rfl) (by rfl),
   (owner_reference_immutable
      [Op.patchTrip "dddddddddddddddddddddddd" [("price", Value.num 30)],
       Op.patchReview (some "aaaaaaaaaaaaaaaaaaaaaaaa") "cccccccccccccccccccccccc"
         [("rating", Value.num 5)]]
      ⟨[], [("dddddddddddddddddddddddd",
             ⟨"aaaaaaaaaaaaaaaaaaaaaaaa", "Lima", "Peru", 20, -12, -77, none, none, 0⟩)],
           [("cccccccccccccccccccccccc",
             ⟨"aaaaaaaaaaaaaaaaaaaaaaaa", "Lima", "Peru", Value.num 4, none, 0⟩)]⟩
      "cccccccccccccccccccccccc").2.1
      ⟨"aaaaaaaaaaaaaaaaaaaaaaaa", "Lima", "Peru", Value.num 4, none, 0⟩
      ⟨"aaaaaaaaaaaaaaaaaaaaaaaa", "Lima", "Peru", Value.num 5, none, 0⟩
      (by rfl) (by rfl)⟩
